import Mathlib

/-!
Verification of the RPC request-admission and dispatch gate of
`src/ripple/rpc/impl/RPCHandler.cpp` (rippled).

The development shallowly embeds the translation unit: the JSON values the
code manipulates become an inductive `JValue`; the admission pipeline
`fillHandler`, the invocation wrapper `callMethod`, the envelope builder
`getResult`, the dispatcher `doCommand` and the lookup `roleRequired` become
Lean functions over an explicit `Context` record.  Exceptions thrown by a
handler method become an explicit `MethodResult.thrown` outcome; the mutable
state a call touches (the atomic request-id counter, the perf log, the
context's load classification) is threaded explicitly.
-/

set_option autoImplicit false

namespace RPCHandler

/-! ## JSON values (Json::Value) -/

/-- A JSON value as manipulated by the code: the code only ever reads and
writes top-level object members, so objects are ordered association lists. -/
inductive JValue where
  | null
  | str (s : String)
  | num (n : Int)
  | boolean (b : Bool)
  | obj (fields : List (String × JValue))
  | arr (elems : List JValue)

/-- Membership test on an ordered field list. -/
def hasField : List (String × JValue) → String → Bool
  | [], _ => false
  | (k', _) :: rest, k => k' == k || hasField rest k

/-- Lookup on an ordered field list (`Json::Value::operator[] const`,
defaulting to null). -/
def getField : List (String × JValue) → String → JValue
  | [], _ => .null
  | (k', v') :: rest, k => if k' == k then v' else getField rest k

/-- Assignment on an ordered field list: replace the first binding of the
key in place, append when absent (JsonCpp `operator[]=` semantics). -/
def setField : List (String × JValue) → String → JValue → List (String × JValue)
  | [], k, v => [(k, v)]
  | (k', v') :: rest, k, v =>
      if k' == k then (k, v) :: rest else (k', v') :: setField rest k v

namespace JValue

/-- `Json::Value::isObject`. -/
def isObject : JValue → Bool
  | .obj _ => true
  | _ => false

/-- `Json::Value::isMember`. -/
def isMember : JValue → String → Bool
  | .obj fields, k => hasField fields k
  | _, _ => false

/-- Const `operator[]`: member of an object, null otherwise. -/
def getMember : JValue → String → JValue
  | .obj fields, k => getField fields k
  | _, _ => .null

/-- Mutating `operator[]=`: writes a member of an object; a null value is
first converted to an empty object (JsonCpp behaviour).  Other scalar
receivers are left unchanged (the code never writes into them). -/
def setMember : JValue → String → JValue → JValue
  | .obj fields, k, v => .obj (setField fields k v)
  | .null, k, v => .obj [(k, v)]
  | j, _, _ => j

/-- `Json::Value::asString`, on the string values the code compares;
non-strings collapse to `""` (the code only calls it on string fields). -/
def asString : JValue → String
  | .str s => s
  | _ => ""

end JValue

/-! ## Roles, error codes, load classification, tuning -/

/-- `Role` (ripple/rpc/Role.h): caller privilege levels. -/
inductive Role where
  | guest
  | user
  | identified
  | admin
  | forbid
  deriving DecidableEq, Repr

/-- Modelled from the spec: `isUnlimited` (Role.cpp is outside the source
fragment) — whether the caller is privileged/unlimited and therefore exempt
from load shedding. -/
def isUnlimited (role : Role) : Bool :=
  role == Role.admin || role == Role.identified

/-- `error_code_i`, restricted to the codes this translation unit produces
(`rpcSUCCESS` is the zero/success value). -/
inductive ErrorCode where
  | success
  | tooBusy
  | commandMissing
  | unknownCommand
  | noPermission
  | noNetwork
  | amendmentBlocked
  | noCurrent
  | noClosed
  | internal
  deriving DecidableEq, Repr

/-- `Resource::Charge` load classifications the wrapper distinguishes
(`feeReferenceRPC`, `feeExceptionRPC`; `feeInvalidRPC` stands for any other
classification a handler may have set). -/
inductive LoadType where
  | feeReferenceRPC
  | feeExceptionRPC
  | feeInvalidRPC
  deriving DecidableEq, Repr

/-- `Tuning::maxJobQueueClients` (ripple/rpc/impl/Tuning.h, outside the
fragment): the configured load-shedding threshold; its numeric value is
immaterial to the claims. -/
def maxJobQueueClients : Nat := 500

/-- `Tuning::maxValidatedLedgerAge` in seconds (outside the fragment);
its numeric value is immaterial to the claims. -/
def maxValidatedLedgerAge : Nat := 120

/-- Modelled from the spec: `NetworkOPs::omSYNCING` in the ordered
operating-mode enumeration (NetworkOPs.h is outside the fragment); modes
are embedded as naturals, `< omSYNCING` meaning "below syncing". -/
def omSYNCING : Nat := 2

/-! ## Handler descriptors and the request context -/

/-- A registered `Handler` descriptor (ripple/rpc/impl/Handler.h): command
name, minimum role, the three `condition_` precondition flags, and whether
`valueMethod_` is non-null. -/
structure Handler where
  name : String
  role : Role
  needsNetwork : Bool
  needsCurrent : Bool
  needsClosed : Bool
  hasValueMethod : Bool
  deriving DecidableEq, Repr

/-- The per-request `RPC::Context` together with the state it reads from its
collaborators (job queue, network operations, ledger master, config,
handler registry), each frozen to the value the collaborator reports. -/
structure Context where
  role : Role
  params : JValue
  loadType : LoadType
  headersUser : String
  headersForwardedFor : String
  /-- `getJobQueue().getJobCountGE(jtCLIENT)`. -/
  jobCount : Nat
  /-- `netOps.getOperatingMode()`, embedded in the mode order. -/
  operatingMode : Nat
  /-- `getOPs().isAmendmentBlocked()`. -/
  amendmentBlocked : Bool
  /-- `config().standalone()`. -/
  standalone : Bool
  /-- `ledgerMaster.getValidatedLedgerAge()` in seconds. -/
  validatedLedgerAge : Nat
  /-- `ledgerMaster.getCurrentLedgerIndex()`. -/
  currentLedgerIndex : Nat
  /-- `ledgerMaster.getValidLedgerIndex()`. -/
  validLedgerIndex : Nat
  /-- `ledgerMaster.getClosedLedger()` non-null. -/
  hasClosedLedger : Bool
  /-- The handler registry: `RPC::getHandler`. -/
  registry : String → Option Handler

/-! ## The admission gate: fillHandler -/

/-- The command name the gate extracts: the `command` field when present,
otherwise the `method` field (`strCommand` in `fillHandler`). -/
def strCommand (ctx : Context) : String :=
  if ctx.params.isMember "command" then (ctx.params.getMember "command").asString
  else (ctx.params.getMember "method").asString

/-- The tail of `fillHandler` from the registry lookup on: handler lookup,
role, network-connectivity, amendment-block, current-ledger freshness and
closed-ledger checks, in source order. -/
def resolveFrom (ctx : Context) (cmd : String) : Except ErrorCode Handler :=
  match ctx.registry cmd with
  | none => .error .unknownCommand
  | some handler =>
    if handler.role == Role.admin && !(ctx.role == Role.admin) then
      .error .noPermission
    else if handler.needsNetwork && decide (ctx.operatingMode < omSYNCING) then
      .error .noNetwork
    else if ctx.amendmentBlocked && (handler.needsCurrent || handler.needsClosed) then
      .error .amendmentBlocked
    else if !ctx.standalone && handler.needsCurrent
        && decide (ctx.validatedLedgerAge > maxValidatedLedgerAge) then
      .error .noCurrent
    else if !ctx.standalone && handler.needsCurrent
        && decide (ctx.currentLedgerIndex + 10 < ctx.validLedgerIndex) then
      .error .noCurrent
    else if handler.needsClosed && !ctx.hasClosedLedger then
      .error .noClosed
    else
      .ok handler

/-- `fillHandler`: the ordered admission pipeline.  Load shedding, command
extraction (missing fields, conflicting fields), then `resolveFrom`. -/
def fillHandler (ctx : Context) : Except ErrorCode Handler :=
  if !isUnlimited ctx.role && decide (ctx.jobCount > maxJobQueueClients) then
    .error .tooBusy
  else if !ctx.params.isMember "command" && !ctx.params.isMember "method" then
    .error .commandMissing
  else if ctx.params.isMember "command" && ctx.params.isMember "method"
      && !((ctx.params.getMember "command").asString
            == (ctx.params.getMember "method").asString) then
    .error .unknownCommand
  else
    resolveFrom ctx (strCommand ctx)

/-! ## The invocation wrapper: callMethod -/

/-- A performance-log (`perfLog`) event: `rpcStart`, `rpcFinish`,
`rpcError`, each tagged with the command name and the request identity. -/
inductive TelemetryEvent where
  | start (name : String) (id : Nat)
  | finish (name : String) (id : Nat)
  | error (name : String) (id : Nat)
  deriving DecidableEq, Repr

/-- Process-wide state the wrapper touches: the atomic `requestId` counter
and the perf-log event stream. -/
structure CallState where
  nextRequestId : Nat
  telemetry : List TelemetryEvent
  deriving DecidableEq, Repr

/-- The outcome of running a handler method body: a normal return carrying
its `Status`, or an escaped exception.  Either way the method may have
written into the output buffer and updated the context's load
classification (the only context field handler bodies mutate through this
translation unit). -/
inductive MethodResult where
  | normal (ret : ErrorCode) (out : JValue) (loadType : LoadType)
  | thrown (out : JValue) (loadType : LoadType)

/-- A handler method body (`Method` template parameter of `callMethod`):
reads the context and the output buffer it is handed. -/
def MethodFn : Type := Context → JValue → MethodResult

/-- Modelled from the spec: `inject_error` (ripple/net/RPCErr, outside the
fragment) writes the error token, numeric code and canonical message of a
code into the output object. -/
def injectError (e : ErrorCode) (obj : JValue) : JValue :=
  ((obj.setMember "error" (.str (reprStr e))).setMember "error_code"
      (.num 0)).setMember "error_message" (.str (reprStr e))

/-- `callMethod`: allocates the next request id, brackets the call with
`rpcStart`/`rpcFinish` telemetry, and on an escaped exception records
`rpcError`, escalates `context.loadType` from `feeReferenceRPC` to
`feeExceptionRPC` when not already escalated, injects `rpcINTERNAL` into
the output buffer and returns `rpcINTERNAL`.  (The scoped load event of
`makeLoadEvent` is released on every path and carries no observable state
here.)  Returns the status, the output buffer, the updated context and the
updated process-wide state; the absence of any other outcome is the
no-propagation guarantee. -/
def callMethod (method : MethodFn) (ctx : Context) (name : String)
    (result : JValue) (st : CallState) :
    ErrorCode × JValue × Context × CallState :=
  let curId := st.nextRequestId + 1
  let st1 : CallState :=
    { nextRequestId := curId, telemetry := st.telemetry ++ [.start name curId] }
  match method ctx result with
  | .normal ret out lt =>
      (ret, out, { ctx with loadType := lt },
        { st1 with telemetry := st1.telemetry ++ [.finish name curId] })
  | .thrown out lt =>
      let lt' := if lt == LoadType.feeReferenceRPC then LoadType.feeExceptionRPC else lt
      (.internal, injectError .internal out, { ctx with loadType := lt' },
        { st1 with telemetry := st1.telemetry ++ [.error name curId] })

/-! ## The result envelope builder: getResult -/

/-- Top-level masking of one sensitive field: replace its value with the
fixed `"<masked>"` token when the field is present. -/
def maskField (rq : JValue) (k : String) : JValue :=
  if rq.isMember k then rq.setMember k (.str "<masked>") else rq

/-- The request echo `getResult` builds on error: a copy of the request
parameters with `passphrase`, `secret`, `seed`, `seed_hex` masked at top
level when the parameters form an object. -/
def maskParams (rq : JValue) : JValue :=
  if rq.isObject then
    maskField (maskField (maskField (maskField rq "passphrase") "secret") "seed") "seed_hex"
  else rq

/-- `getResult`: adds a nested `result` object to `object`, runs
`callMethod` against it; on a non-success status sets `result.status` to
`"error"` and echoes the masked request parameters as `result.request`; on
success sets `result.status` to `"success"`. -/
def getResult (method : MethodFn) (ctx : Context) (object : JValue)
    (name : String) (st : CallState) : JValue × Context × CallState :=
  let r := callMethod method ctx name (.obj []) st
  let status := r.1
  let res := r.2.1
  let ctx' := r.2.2.1
  let st' := r.2.2.2
  let res' :=
    if status == ErrorCode.success then
      res.setMember "status" (.str "success")
    else
      (res.setMember "status" (.str "error")).setMember "request"
        (maskParams ctx'.params)
  (object.setMember "result" res', ctx', st')

/-! ## The dispatcher: doCommand, and roleRequired -/

/-- `doCommand`: runs the admission gate; on failure injects the error
directly into the flat output object and returns the error.  On success
with a registered value method, calls `callMethod` on the flat output
object — with debug-only audit logging around the call when caller
attribution headers are present (both branches perform the same call).
Without a value method, returns `rpcUNKNOWN_COMMAND`.  The method bodies
are supplied per command name, mirroring `handler->valueMethod_`. -/
def doCommand (methods : String → MethodFn) (ctx : Context)
    (result : JValue) (st : CallState) :
    ErrorCode × JValue × Context × CallState :=
  match fillHandler ctx with
  | .error e => (e, injectError e result, ctx, st)
  | .ok handler =>
    if handler.hasValueMethod then
      if !(ctx.headersUser == "") || !(ctx.headersForwardedFor == "") then
        callMethod (methods handler.name) ctx handler.name result st
      else
        callMethod (methods handler.name) ctx handler.name result st
    else
      (.unknownCommand, result, ctx, st)

/-- `roleRequired`: a pure registry lookup; `Role::FORBID` for unresolved
command names, otherwise the handler's declared role. -/
def roleRequired (registry : String → Option Handler) (cmd : String) : Role :=
  match registry cmd with
  | none => Role.forbid
  | some handler => handler.role

/-! ## The pipeline, check by check

Each admission check of §4.1, stated independently of the others as "does
this request violate the check, and with which error".  `fillHandler` is
then proved equal to the first violated check in pipeline order. -/

/-- Check 1, load shedding. -/
def loadShedCheck (ctx : Context) : Option ErrorCode :=
  if !isUnlimited ctx.role && decide (ctx.jobCount > maxJobQueueClients) then
    some .tooBusy
  else none

/-- Check 2, command extraction: both accepted field names absent, or both
present with differing strings. -/
def commandExtractCheck (ctx : Context) : Option ErrorCode :=
  if !ctx.params.isMember "command" && !ctx.params.isMember "method" then
    some .commandMissing
  else if ctx.params.isMember "command" && ctx.params.isMember "method"
      && !((ctx.params.getMember "command").asString
            == (ctx.params.getMember "method").asString) then
    some .unknownCommand
  else none

/-- Check 3, handler lookup. -/
def handlerLookupCheck (ctx : Context) : Option ErrorCode :=
  match ctx.registry (strCommand ctx) with
  | none => some .unknownCommand
  | some _ => none

/-- Check 4, role. -/
def roleCheck (ctx : Context) : Option ErrorCode :=
  match ctx.registry (strCommand ctx) with
  | none => none
  | some handler =>
    if handler.role == Role.admin && !(ctx.role == Role.admin) then
      some .noPermission
    else none

/-- Check 5, network connectivity. -/
def networkCheck (ctx : Context) : Option ErrorCode :=
  match ctx.registry (strCommand ctx) with
  | none => none
  | some handler =>
    if handler.needsNetwork && decide (ctx.operatingMode < omSYNCING) then
      some .noNetwork
    else none

/-- Check 6, amendment block. -/
def amendmentCheck (ctx : Context) : Option ErrorCode :=
  match ctx.registry (strCommand ctx) with
  | none => none
  | some handler =>
    if ctx.amendmentBlocked && (handler.needsCurrent || handler.needsClosed) then
      some .amendmentBlocked
    else none

/-- Check 7, current-ledger freshness (both sub-conditions). -/
def currentLedgerCheck (ctx : Context) : Option ErrorCode :=
  match ctx.registry (strCommand ctx) with
  | none => none
  | some handler =>
    if !ctx.standalone && handler.needsCurrent
        && (decide (ctx.validatedLedgerAge > maxValidatedLedgerAge)
            || decide (ctx.currentLedgerIndex + 10 < ctx.validLedgerIndex)) then
      some .noCurrent
    else none

/-- Check 8, closed-ledger existence. -/
def closedLedgerCheck (ctx : Context) : Option ErrorCode :=
  match ctx.registry (strCommand ctx) with
  | none => none
  | some handler =>
    if handler.needsClosed && !ctx.hasClosedLedger then
      some .noClosed
    else none

/-- The eight checks in the pipeline order of §4.1. -/
def gateChecks (ctx : Context) : List (Option ErrorCode) :=
  [loadShedCheck ctx, commandExtractCheck ctx, handlerLookupCheck ctx,
   roleCheck ctx, networkCheck ctx, amendmentCheck ctx,
   currentLedgerCheck ctx, closedLedgerCheck ctx]

/-- First hit of an ordered check list. -/
def firstSome : List (Option ErrorCode) → Option ErrorCode
  | [] => none
  | o :: rest => match o with
    | some e => some e
    | none => firstSome rest

/-- The error produced by the gate, if any. -/
def gateError : Except ErrorCode Handler → Option ErrorCode
  | .error e => some e
  | .ok _ => none

/-- The four top-level request fields `getResult` masks on error. -/
def sensitiveFields : List String := ["passphrase", "secret", "seed", "seed_hex"]

/-! ## Concrete fixtures, for evaluating the theorems on closed inputs -/

/-- A registered handler with no preconditions and a value method. -/
def pingHandler : Handler :=
  { name := "ping", role := .user, needsNetwork := false,
    needsCurrent := false, needsClosed := false, hasValueMethod := true }

/-- A registered handler needing the network and a current ledger. -/
def ledgerHandler : Handler :=
  { name := "ledger", role := .user, needsNetwork := true,
    needsCurrent := true, needsClosed := true, hasValueMethod := true }

/-- A registered admin-only handler. -/
def stopHandler : Handler :=
  { name := "stop", role := .admin, needsNetwork := false,
    needsCurrent := false, needsClosed := false, hasValueMethod := true }

/-- A small concrete handler registry. -/
def baseRegistry : String → Option Handler := fun cmd =>
  if cmd == "ping" then some pingHandler
  else if cmd == "ledger" then some ledgerHandler
  else if cmd == "stop" then some stopHandler
  else none

/-- A healthy request context: synced node, fresh ledgers, idle job queue,
an ordinary caller asking for `ping`. -/
def baseCtx : Context :=
  { role := .user,
    params := .obj [("command", .str "ping")],
    loadType := .feeReferenceRPC,
    headersUser := "",
    headersForwardedFor := "",
    jobCount := 0,
    operatingMode := 4,
    amendmentBlocked := false,
    standalone := false,
    validatedLedgerAge := 3,
    currentLedgerIndex := 100,
    validLedgerIndex := 100,
    hasClosedLedger := true,
    registry := baseRegistry }

/-- A method table for the fixtures: every command's body reports success
and writes one field. -/
def baseMethods : String → MethodFn := fun _ =>
  fun _ _ => .normal .success (.obj [("pong", .boolean true)]) .feeReferenceRPC

/-- A method body whose execution throws. -/
def throwingMethod : MethodFn := fun _ _ => .thrown (.obj []) .feeReferenceRPC

/-- An ordinary caller while the job queue is over the threshold. -/
def busyCtx : Context := { baseCtx with jobCount := 501 }

/-- An unlimited caller while the job queue is over the threshold. -/
def busyAdminCtx : Context := { baseCtx with role := .admin, jobCount := 501 }

/-- A request carrying neither a `command` nor a `method` field. -/
def noCmdCtx : Context := { baseCtx with params := .obj [("id", .num 1)] }

/-- A request whose `command` and `method` fields disagree. -/
def conflictCtx : Context :=
  { baseCtx with
    params := .obj [("command", .str "ping"), ("method", .str "ledger")] }

/-- A request whose `command` and `method` fields agree. -/
def agreeCtx : Context :=
  { baseCtx with
    params := .obj [("command", .str "ping"), ("method", .str "ping")] }

/-- A healthy node whose current ledger trails the validated ledger by more
than the tolerance, on a command needing a current ledger. -/
def laggedCtx : Context :=
  { baseCtx with
    params := .obj [("command", .str "ledger")],
    currentLedgerIndex := 100, validLedgerIndex := 120 }

/-- The same lagging node in standalone mode. -/
def standaloneLaggedCtx : Context := { laggedCtx with standalone := true }

/-- An amendment-blocked node on a command needing a current ledger. -/
def blockedLedgerCtx : Context :=
  { baseCtx with
    params := .obj [("command", .str "ledger")], amendmentBlocked := true }

/-- An amendment-blocked node on a command needing no ledger data. -/
def blockedPingCtx : Context := { baseCtx with amendmentBlocked := true }

/-- A request whose parameters carry a top-level secret and an ordinary
field. -/
def secretCtx : Context :=
  { baseCtx with
    params := .obj [("command", .str "ping"), ("secret", .str "shh"),
      ("ledger_index", .num 7)] }

/-! ## Association-list and masking lemmas -/

theorem getField_setField_same (l : List (String × JValue)) (k : String)
    (v : JValue) : getField (setField l k v) k = v := by
  induction l with
  | nil => simp [setField, getField]
  | cons p rest ih =>
      obtain ⟨k', v'⟩ := p
      by_cases h : (k' == k) = true
      · simp [setField, getField, h]
      · simp only [setField, h, Bool.false_eq_true, if_false, getField, ih]

theorem getField_setField_ne (l : List (String × JValue)) (k k₂ : String)
    (v : JValue) (hne : ¬k₂ = k) :
    getField (setField l k v) k₂ = getField l k₂ := by
  induction l with
  | nil =>
      simp [setField, getField]
      intro h
      exact absurd h.symm hne
  | cons p rest ih =>
      obtain ⟨k', v'⟩ := p
      by_cases h : (k' == k) = true
      · have : ¬(k == k₂) = true := by
          simp only [beq_iff_eq]
          intro hk
          exact hne hk.symm
        have h' : (k' == k₂) = (k == k₂) := by
          rw [beq_iff_eq] at h
          rw [h]
        simp [setField, getField, h, this, h']
      · simp only [setField, h, Bool.false_eq_true, if_false, getField]
        by_cases h2 : (k' == k₂) = true
        · simp [h2]
        · simp [h2, ih]

theorem hasField_setField_same (l : List (String × JValue)) (k : String)
    (v : JValue) : hasField (setField l k v) k = true := by
  induction l with
  | nil => simp [setField, hasField]
  | cons p rest ih =>
      obtain ⟨k', v'⟩ := p
      by_cases h : (k' == k) = true
      · simp [setField, hasField, h]
      · simp [setField, hasField, h, ih]

theorem hasField_setField_ne (l : List (String × JValue)) (k k₂ : String)
    (v : JValue) (hne : ¬k₂ = k) :
    hasField (setField l k v) k₂ = hasField l k₂ := by
  induction l with
  | nil =>
      simp [setField, hasField]
      intro h
      exact absurd h.symm hne
  | cons p rest ih =>
      obtain ⟨k', v'⟩ := p
      by_cases h : (k' == k) = true
      · have h' : (k' == k₂) = (k == k₂) := by
          rw [beq_iff_eq] at h
          rw [h]
        simp [setField, hasField, h, h']
      · simp [setField, hasField, h, ih]

/-- Masking one field preserves membership at every key. -/
theorem isMember_maskField (p : JValue) (k k₂ : String) :
    (maskField p k).isMember k₂ = p.isMember k₂ := by
  unfold maskField
  by_cases hm : p.isMember k = true
  · simp only [hm, if_true]
    cases p with
    | obj fields =>
        by_cases he : k₂ = k
        · subst he
          simp only [JValue.setMember, JValue.isMember,
            hasField_setField_same]
          exact Eq.symm (by simpa [JValue.isMember] using hm)
        · simp [JValue.setMember, JValue.isMember, hasField_setField_ne _ _ _ _ he]
    | null => simp [JValue.isMember] at hm
    | str s => simp [JValue.isMember] at hm
    | num n => simp [JValue.isMember] at hm
    | boolean b => simp [JValue.isMember] at hm
    | arr es => simp [JValue.isMember] at hm
  · simp [hm]

/-- Masking one field preserves objectness. -/
theorem isObject_maskField (p : JValue) (k : String) :
    (maskField p k).isObject = p.isObject := by
  unfold maskField
  by_cases hm : p.isMember k = true
  · cases p <;> simp_all [JValue.isMember, JValue.setMember, JValue.isObject]
  · simp [hm]

/-- Reading the masked field: the fixed token when present. -/
theorem getMember_maskField_same (p : JValue) (k : String)
    (hm : p.isMember k = true) :
    (maskField p k).getMember k = .str "<masked>" := by
  unfold maskField
  cases p with
  | obj fields =>
      simp [hm, JValue.setMember, JValue.getMember, getField_setField_same]
  | null => simp [JValue.isMember] at hm
  | str s => simp [JValue.isMember] at hm
  | num n => simp [JValue.isMember] at hm
  | boolean b => simp [JValue.isMember] at hm
  | arr es => simp [JValue.isMember] at hm

/-- Reading any other field after masking one: unchanged. -/
theorem getMember_maskField_ne (p : JValue) (k k₂ : String) (hne : ¬k₂ = k) :
    (maskField p k).getMember k₂ = p.getMember k₂ := by
  unfold maskField
  by_cases hm : p.isMember k = true
  · cases p with
    | obj fields =>
        simp [hm, JValue.setMember, JValue.getMember,
          getField_setField_ne _ _ _ _ hne]
    | null => simp [JValue.isMember] at hm
    | str s => simp [JValue.isMember] at hm
    | num n => simp [JValue.isMember] at hm
    | boolean b => simp [JValue.isMember] at hm
    | arr es => simp [JValue.isMember] at hm
  · simp [hm]

/-- The request echo `maskParams` preserves membership at every key. -/
theorem isMember_maskParams (p : JValue) (k : String) :
    (maskParams p).isMember k = p.isMember k := by
  unfold maskParams
  by_cases ho : p.isObject = true
  · simp [ho, isMember_maskField]
  · simp [ho]

/-- Reading after masking one field, in closed form. -/
theorem getMember_maskField (p : JValue) (k k2 : String) :
    (maskField p k).getMember k2 =
      if k2 = k ∧ p.isMember k = true then .str "<masked>"
      else p.getMember k2 := by
  by_cases he : k2 = k
  · subst he
    by_cases hm : p.isMember k2 = true
    · simp [hm, getMember_maskField_same _ _ hm]
    · unfold maskField
      simp [hm]
  · simp [getMember_maskField_ne _ _ _ he, he]

/-- Field-level characterisation of `maskParams` on object parameters:
each sensitive field present in the request reads back as the fixed mask
token, every other field reads back unchanged. -/
theorem getMember_maskParams (p : JValue) (k : String) (ho : p.isObject = true) :
    (maskParams p).getMember k =
      if k ∈ sensitiveFields ∧ p.isMember k = true then .str "<masked>"
      else p.getMember k := by
  unfold maskParams
  simp only [ho, if_true, getMember_maskField, isMember_maskField,
    sensitiveFields]
  by_cases h1 : k = "passphrase"
  · subst h1
    simp [(by decide : ¬("passphrase" = "secret")),
      (by decide : ¬("passphrase" = "seed")),
      (by decide : ¬("passphrase" = "seed_hex"))]
  by_cases h2 : k = "secret"
  · subst h2
    simp [(by decide : ¬("secret" = "seed")),
      (by decide : ¬("secret" = "seed_hex"))]
  by_cases h3 : k = "seed"
  · subst h3
    simp [(by decide : ¬("seed" = "seed_hex"))]
  by_cases h4 : k = "seed_hex"
  · subst h4
    simp
  · simp [h1, h2, h3, h4]

/-- Writing a member of an object, then reading it back. -/
theorem getMember_setMember_same (p : JValue) (k : String) (v : JValue)
    (hp : p.isObject = true) : (p.setMember k v).getMember k = v := by
  cases p <;>
    simp_all [JValue.isObject, JValue.setMember, JValue.getMember,
      getField_setField_same]

/-- Writing a member of an object leaves every other member unchanged. -/
theorem getMember_setMember_ne (p : JValue) (k k2 : String) (v : JValue)
    (hp : p.isObject = true) (hne : ¬k2 = k) :
    (p.setMember k v).getMember k2 = p.getMember k2 := by
  cases p <;>
    simp_all [JValue.isObject, JValue.setMember, JValue.getMember,
      getField_setField_ne _ _ _ _ hne]

/-- Membership after writing a member of an object. -/
theorem isMember_setMember (p : JValue) (k k2 : String) (v : JValue)
    (hp : p.isObject = true) :
    (p.setMember k v).isMember k2 = if k2 = k then true else p.isMember k2 := by
  cases p with
  | obj fields =>
      by_cases he : k2 = k
      · subst he
        simp [JValue.setMember, JValue.isMember, hasField_setField_same]
      · simp [JValue.setMember, JValue.isMember, he,
          hasField_setField_ne _ _ _ _ he]
  | null => simp_all [JValue.isObject]
  | str s => simp_all [JValue.isObject]
  | num n => simp_all [JValue.isObject]
  | boolean b => simp_all [JValue.isObject]
  | arr es => simp_all [JValue.isObject]

/-- Writing a member of an object yields an object. -/
theorem isObject_setMember (p : JValue) (k : String) (v : JValue)
    (hp : p.isObject = true) : (p.setMember k v).isObject = true := by
  cases p <;> simp_all [JValue.isObject, JValue.setMember]

/-- The wrapper never touches the request parameters: whatever the method
body does, the context `callMethod` hands back carries the parameters it
received. -/
theorem callMethod_params (method : MethodFn) (ctx : Context) (name : String)
    (result : JValue) (st : CallState) :
    (callMethod method ctx name result st).2.2.1.params = ctx.params := by
  unfold callMethod
  cases method ctx result <;> rfl

/-- `resolveFrom` never reports `TooBusy`: load shedding happens strictly
before it. -/
theorem resolveFrom_ne_tooBusy (ctx : Context) (cmd : String) :
    ¬resolveFrom ctx cmd = .error .tooBusy := by
  unfold resolveFrom
  cases ctx.registry cmd with
  | none => simp
  | some handler => (repeat' split) <;> simp

/-- On a standalone node `resolveFrom` never reports `NoCurrent`. -/
theorem resolveFrom_standalone_ne_noCurrent (ctx : Context) (cmd : String)
    (hs : ctx.standalone = true) : ¬resolveFrom ctx cmd = .error .noCurrent := by
  unfold resolveFrom
  cases ctx.registry cmd with
  | none => simp
  | some handler =>
      simp only [hs]
      (repeat' split) <;> simp_all

/-- For a handler requiring neither a current nor a closed ledger,
`resolveFrom` never reports `AmendmentBlocked`. -/
theorem resolveFrom_no_ledger_ne_amendmentBlocked (ctx : Context)
    (cmd : String) (handler : Handler)
    (hreg : ctx.registry cmd = some handler)
    (hc : handler.needsCurrent = false) (hl : handler.needsClosed = false) :
    ¬resolveFrom ctx cmd = .error .amendmentBlocked := by
  unfold resolveFrom
  rw [hreg]
  simp only [hc, hl]
  (repeat' split) <;> simp_all

/-- C1: the admission gate is a strict ordered pipeline — for every request,
the gate's error is exactly the first violated check in the order load
shedding, command extraction, handler lookup, role, network connectivity,
amendment block, current-ledger freshness, closed-ledger existence; a
request violating several checks reports the first, and no later check
influences the result. -/
theorem fillHandler_first_violated_check (ctx : Context) :
    gateError (fillHandler ctx) = firstSome (gateChecks ctx) := by
  simp only [gateChecks, fillHandler, resolveFrom, loadShedCheck,
    commandExtractCheck, handlerLookupCheck, roleCheck, networkCheck,
    amendmentCheck, currentLedgerCheck, closedLedgerCheck]
  by_cases h1 : (!isUnlimited ctx.role
      && decide (ctx.jobCount > maxJobQueueClients)) = true
  · simp [h1, firstSome, gateError]
  by_cases h2 : (!ctx.params.isMember "command"
      && !ctx.params.isMember "method") = true
  · simp [h1, h2, firstSome, gateError]
  by_cases h3 : (ctx.params.isMember "command" && ctx.params.isMember "method"
      && !((ctx.params.getMember "command").asString
            == (ctx.params.getMember "method").asString)) = true
  · simp [h1, h2, h3, firstSome, gateError]
  cases hreg : ctx.registry (strCommand ctx) with
  | none => simp [h1, h2, h3, hreg, firstSome, gateError]
  | some handler =>
    by_cases h4 : (handler.role == Role.admin && !(ctx.role == Role.admin)) = true
    · simp [h1, h2, h3, h4, firstSome, gateError]
    by_cases h5 : (handler.needsNetwork
        && decide (ctx.operatingMode < omSYNCING)) = true
    · simp [h1, h2, h3, h4, h5, firstSome, gateError]
    by_cases hab : ctx.amendmentBlocked = true
    · by_cases hcc : (handler.needsCurrent || handler.needsClosed) = true
      · simp [h1, h2, h3, h4, h5, hab, hcc, firstSome, gateError]
      · simp only [Bool.or_eq_true, not_or, Bool.not_eq_true] at hcc
        simp [h1, h2, h3, h4, h5, hab, hcc.1, hcc.2, firstSome, gateError]
    by_cases hs : ctx.standalone = true
    · by_cases h8 : (handler.needsClosed && !ctx.hasClosedLedger) = true
      · simp [h1, h2, h3, h4, h5, hab, hs, h8, firstSome, gateError]
      · simp [h1, h2, h3, h4, h5, hab, hs, h8, firstSome, gateError]
    by_cases hc : handler.needsCurrent = true
    · by_cases ha : decide (ctx.validatedLedgerAge > maxValidatedLedgerAge) = true
      · simp [h1, h2, h3, h4, h5, hab, hs, hc, ha, firstSome, gateError]
      by_cases hb : decide (ctx.currentLedgerIndex + 10
          < ctx.validLedgerIndex) = true
      · simp [h1, h2, h3, h4, h5, hab, hs, hc, ha, hb, firstSome, gateError]
      by_cases h8 : (handler.needsClosed && !ctx.hasClosedLedger) = true
      · simp [h1, h2, h3, h4, h5, hab, hs, hc, ha, hb, h8, firstSome, gateError]
      · simp [h1, h2, h3, h4, h5, hab, hs, hc, ha, hb, h8, firstSome, gateError]
    · by_cases h8 : (handler.needsClosed && !ctx.hasClosedLedger) = true
      · simp [h1, h2, h3, h4, h5, hab, hs, hc, h8, firstSome, gateError]
      · simp [h1, h2, h3, h4, h5, hab, hs, hc, h8, firstSome, gateError]

/-- C2 (counterexample): a request that passes the admission gate, whose
resolved handler (`ping`) exposes a value method, yet whose dispatched
response object receives neither a nested `result` field nor a `status`
field — `doCommand` does not delegate to the envelope builder. -/
theorem doCommand_no_result_envelope :
    fillHandler baseCtx = .ok pingHandler ∧
    pingHandler.hasValueMethod = true ∧
    (doCommand baseMethods baseCtx (.obj []) ⟨0, []⟩).1 = .success ∧
    (doCommand baseMethods baseCtx (.obj []) ⟨0, []⟩).2.1.isMember "result"
      = false ∧
    (doCommand baseMethods baseCtx (.obj []) ⟨0, []⟩).2.1.isMember "status"
      = false := by
  refine ⟨rfl, rfl, rfl, rfl, rfl⟩

/-- C2 (amended): for every request that passes the admission gate and whose
resolved handler exposes a value method, `doCommand` delegates directly to
the invocation wrapper `callMethod` on the flat output object; the nested
`result`/`status`/masked-request envelope belongs to `getResult`, which
`doCommand` does not invoke. -/
theorem doCommand_calls_wrapper_directly (methods : String → MethodFn)
    (ctx : Context) (result : JValue) (st : CallState) (handler : Handler)
    (hfill : fillHandler ctx = .ok handler)
    (hvm : handler.hasValueMethod = true) :
    doCommand methods ctx result st
      = callMethod (methods handler.name) ctx handler.name result st := by
  unfold doCommand
  rw [hfill]
  simp [hvm]

/-- C2 (witness): the amended statement evaluated on the `ping` fixture. -/
theorem doCommand_calls_wrapper_directly_witness :
    doCommand baseMethods baseCtx (.obj []) ⟨0, []⟩
      = callMethod (baseMethods "ping") baseCtx "ping" (.obj []) ⟨0, []⟩ :=
  doCommand_calls_wrapper_directly baseMethods baseCtx (.obj []) ⟨0, []⟩
    pingHandler rfl rfl

/-- C4: when the handler method raises an unrecovered failure, the wrapper
records an error telemetry event, writes the generic `Internal` error into
the output buffer, returns `Internal` (it always returns: no failure
propagates past this boundary), and escalates the load classification from
reference cost to exception cost only when it had not already been
escalated — an already-escalated (or otherwise re-classified) request is
left as it is, so escalation happens exactly once even when re-entered. -/
theorem callMethod_exception (method : MethodFn) (ctx : Context)
    (name : String) (result : JValue) (st : CallState)
    (out : JValue) (lt : LoadType)
    (h : method ctx result = .thrown out lt) :
    (callMethod method ctx name result st).1 = .internal ∧
    (callMethod method ctx name result st).2.1 = injectError .internal out ∧
    (callMethod method ctx name result st).2.2.2.telemetry
      = st.telemetry ++ [.start name (st.nextRequestId + 1),
          .error name (st.nextRequestId + 1)] ∧
    (lt = .feeReferenceRPC →
      (callMethod method ctx name result st).2.2.1.loadType
        = .feeExceptionRPC) ∧
    (¬lt = .feeReferenceRPC →
      (callMethod method ctx name result st).2.2.1.loadType = lt) := by
  unfold callMethod
  rw [h]
  refine ⟨rfl, rfl, by simp, ?_, ?_⟩
  · intro hlt
    subst hlt
    rfl
  · intro hlt
    simp [hlt]

/-- C4 (witness): a throwing `ping` body on the healthy fixture: `Internal`
comes back, telemetry logs start then error, and the reference-cost load
classification is escalated to exception cost. -/
theorem callMethod_exception_witness :
    (callMethod throwingMethod baseCtx "ping" (.obj []) ⟨0, []⟩).1
      = .internal ∧
    (callMethod throwingMethod baseCtx "ping" (.obj []) ⟨0, []⟩).2.2.2.telemetry
      = [.start "ping" 1, .error "ping" 1] ∧
    (callMethod throwingMethod baseCtx "ping" (.obj []) ⟨0, []⟩).2.2.1.loadType
      = .feeExceptionRPC :=
  ⟨(callMethod_exception throwingMethod baseCtx "ping" (.obj []) ⟨0, []⟩
      (.obj []) .feeReferenceRPC rfl).1,
   (callMethod_exception throwingMethod baseCtx "ping" (.obj []) ⟨0, []⟩
      (.obj []) .feeReferenceRPC rfl).2.2.1,
   (callMethod_exception throwingMethod baseCtx "ping" (.obj []) ⟨0, []⟩
      (.obj []) .feeReferenceRPC rfl).2.2.2.1 rfl⟩

/-- C5: a non-privileged caller is shed with `TooBusy` whenever the pending
client-job count exceeds the threshold, regardless of any other request
content; a privileged/unlimited caller is never shed — `fillHandler` never
reports `TooBusy` for it. -/
theorem fillHandler_load_shedding (ctx : Context) :
    (isUnlimited ctx.role = false → ctx.jobCount > maxJobQueueClients →
      fillHandler ctx = .error .tooBusy) ∧
    (isUnlimited ctx.role = true → ¬fillHandler ctx = .error .tooBusy) := by
  constructor
  · intro hr hj
    unfold fillHandler
    simp [hr, hj]
  · intro hr
    unfold fillHandler
    simp only [hr, Bool.not_true, Bool.false_and, Bool.false_eq_true,
      if_false]
    by_cases h2 : (!ctx.params.isMember "command"
        && !ctx.params.isMember "method") = true
    · simp [h2]
    by_cases h3 : (ctx.params.isMember "command" && ctx.params.isMember "method"
        && !((ctx.params.getMember "command").asString
              == (ctx.params.getMember "method").asString)) = true
    · simp [h2, h3]
    · simp only [h2, h3, Bool.false_eq_true, if_false]
      exact resolveFrom_ne_tooBusy ctx (strCommand ctx)

/-- C5 (witness): over-threshold queue: the ordinary caller is shed, the
admin caller is not. -/
theorem fillHandler_load_shedding_witness :
    fillHandler busyCtx = .error .tooBusy ∧
    ¬fillHandler busyAdminCtx = .error .tooBusy :=
  ⟨(fillHandler_load_shedding busyCtx).1 rfl (by decide),
   (fillHandler_load_shedding busyAdminCtx).2 rfl⟩

/-- C9: `roleRequired` is a pure lookup — the sentinel `forbid` role for
unresolved command names, the handler's declared role otherwise — and with
no registry mutation in between, repeated calls always return the same
role. -/
theorem roleRequired_pure_lookup (registry : String → Option Handler)
    (cmd : String) :
    (registry cmd = none → roleRequired registry cmd = .forbid) ∧
    (∀ handler : Handler, registry cmd = some handler →
      roleRequired registry cmd = handler.role) ∧
    (∀ r1 r2 : Role, r1 = roleRequired registry cmd →
      r2 = roleRequired registry cmd → r1 = r2) := by
  refine ⟨?_, ?_, ?_⟩
  · intro hn
    unfold roleRequired
    rw [hn]
  · intro handler hs
    unfold roleRequired
    rw [hs]
  · intro r1 r2 h1 h2
    rw [h1, h2]

/-- C9 (witness): on the fixture registry, the admin-only `stop` command and
an unregistered name. -/
theorem roleRequired_pure_lookup_witness :
    roleRequired baseRegistry "stop" = Role.admin ∧
    roleRequired baseRegistry "nope" = Role.forbid ∧
    roleRequired baseRegistry "stop" = roleRequired baseRegistry "stop" :=
  ⟨(roleRequired_pure_lookup baseRegistry "stop").2.1 stopHandler rfl,
   (roleRequired_pure_lookup baseRegistry "nope").1 rfl,
   (roleRequired_pure_lookup baseRegistry "stop").2.2
     (roleRequired baseRegistry "stop") (roleRequired baseRegistry "stop")
     rfl rfl⟩

/-- C6: past load shedding, a request carrying neither accepted command
field fails with `CommandMissing`; carrying both with textually differing
strings fails with `UnknownCommand`; carrying both with equal strings
proceeds normally — resolution continues with that name. -/
theorem fillHandler_command_extraction (ctx : Context)
    (hload : (!isUnlimited ctx.role
      && decide (ctx.jobCount > maxJobQueueClients)) = false) :
    (ctx.params.isMember "command" = false →
      ctx.params.isMember "method" = false →
      fillHandler ctx = .error .commandMissing) ∧
    (∀ s t : String, ctx.params.isMember "command" = true →
      ctx.params.isMember "method" = true →
      (ctx.params.getMember "command").asString = s →
      (ctx.params.getMember "method").asString = t → ¬s = t →
      fillHandler ctx = .error .unknownCommand) ∧
    (∀ s : String, ctx.params.isMember "command" = true →
      ctx.params.isMember "method" = true →
      (ctx.params.getMember "command").asString = s →
      (ctx.params.getMember "method").asString = s →
      fillHandler ctx = resolveFrom ctx s) := by
  refine ⟨?_, ?_, ?_⟩
  · intro hc hm
    unfold fillHandler
    simp [hload, hc, hm]
  · intro s t hc hm hs ht hne
    unfold fillHandler
    simp [hload, hc, hm, hs, ht, hne]
  · intro s hc hm hs ht
    unfold fillHandler strCommand
    simp [hload, hc, hm, hs, ht]

/-- C6 (witness): the three extraction outcomes on concrete requests. -/
theorem fillHandler_command_extraction_witness :
    fillHandler noCmdCtx = .error .commandMissing ∧
    fillHandler conflictCtx = .error .unknownCommand ∧
    fillHandler agreeCtx = resolveFrom agreeCtx "ping" :=
  ⟨(fillHandler_command_extraction noCmdCtx rfl).1 rfl rfl,
   (fillHandler_command_extraction conflictCtx rfl).2.1 "ping" "ledger"
     rfl rfl rfl rfl (by decide),
   (fillHandler_command_extraction agreeCtx rfl).2.2 "ping" rfl rfl rfl rfl⟩

/-- C7: for a resolved handler requiring a current ledger, on a
non-standalone node with every earlier check passing, a validated-ledger
age above the configured maximum or a validated ledger index exceeding the
current one by more than 10 yields `NoCurrent`; on a standalone node the
whole freshness check is skipped and `NoCurrent` is never reported. -/
theorem fillHandler_no_current (ctx : Context) (handler : Handler)
    (h1 : (!isUnlimited ctx.role
      && decide (ctx.jobCount > maxJobQueueClients)) = false)
    (h2 : (!ctx.params.isMember "command"
      && !ctx.params.isMember "method") = false)
    (h3 : (ctx.params.isMember "command" && ctx.params.isMember "method"
      && !((ctx.params.getMember "command").asString
            == (ctx.params.getMember "method").asString)) = false)
    (hreg : ctx.registry (strCommand ctx) = some handler)
    (h4 : (handler.role == Role.admin && !(ctx.role == Role.admin)) = false)
    (h5 : (handler.needsNetwork
      && decide (ctx.operatingMode < omSYNCING)) = false)
    (h6 : (ctx.amendmentBlocked
      && (handler.needsCurrent || handler.needsClosed)) = false)
    (hsa : ctx.standalone = false)
    (hcur : handler.needsCurrent = true) :
    (ctx.validatedLedgerAge > maxValidatedLedgerAge ∨
        ctx.validLedgerIndex - ctx.currentLedgerIndex > 10 →
      fillHandler ctx = .error .noCurrent) ∧
    (∀ ctx' : Context, ctx'.standalone = true →
      ¬fillHandler ctx' = .error .noCurrent) := by
  constructor
  · intro hfresh
    have hab : ctx.amendmentBlocked = false := by
      revert h6
      simp [hcur]
    unfold fillHandler
    simp only [h1, h2, h3, Bool.false_eq_true, if_false]
    unfold resolveFrom
    rw [hreg]
    simp only [h4, h5, hab, hsa, hcur, Bool.not_false, Bool.true_and,
      Bool.and_true, Bool.false_and, Bool.false_eq_true, if_false]
    rcases hfresh with ha | hb
    · simp [ha]
    · have hlt : ctx.currentLedgerIndex + 10 < ctx.validLedgerIndex := by
        omega
      by_cases ha : decide (ctx.validatedLedgerAge > maxValidatedLedgerAge)
          = true
      · simp [ha]
      · simp [ha, hlt]
  · intro ctx' hs
    unfold fillHandler
    by_cases c1 : (!isUnlimited ctx'.role
        && decide (ctx'.jobCount > maxJobQueueClients)) = true
    · simp [c1]
    by_cases c2 : (!ctx'.params.isMember "command"
        && !ctx'.params.isMember "method") = true
    · simp [c1, c2]
    by_cases c3 : (ctx'.params.isMember "command"
        && ctx'.params.isMember "method"
        && !((ctx'.params.getMember "command").asString
              == (ctx'.params.getMember "method").asString)) = true
    · simp [c1, c2, c3]
    · simp only [c1, c2, c3, Bool.false_eq_true, if_false]
      exact resolveFrom_standalone_ne_noCurrent ctx' (strCommand ctx') hs

/-- C7 (witness): a synced, healthy node whose current ledger trails the
validated ledger by 20 reports `NoCurrent`; the same request in standalone
mode does not. -/
theorem fillHandler_no_current_witness :
    fillHandler laggedCtx = .error .noCurrent ∧
    ¬fillHandler standaloneLaggedCtx = .error .noCurrent :=
  ⟨(fillHandler_no_current laggedCtx ledgerHandler rfl rfl rfl rfl rfl rfl
      rfl rfl rfl).1 (Or.inr (by decide)),
   (fillHandler_no_current laggedCtx ledgerHandler rfl rfl rfl rfl rfl rfl
      rfl rfl rfl).2 standaloneLaggedCtx rfl⟩

/-- C8: with every earlier check passing, an amendment-blocked node fails a
handler requiring a current or a closed ledger with `AmendmentBlocked`;
for a resolved handler requiring neither, amendment-blocked status never
produces that failure. -/
theorem fillHandler_amendment_blocked (ctx : Context) (handler : Handler)
    (h1 : (!isUnlimited ctx.role
      && decide (ctx.jobCount > maxJobQueueClients)) = false)
    (h2 : (!ctx.params.isMember "command"
      && !ctx.params.isMember "method") = false)
    (h3 : (ctx.params.isMember "command" && ctx.params.isMember "method"
      && !((ctx.params.getMember "command").asString
            == (ctx.params.getMember "method").asString)) = false)
    (hreg : ctx.registry (strCommand ctx) = some handler)
    (h4 : (handler.role == Role.admin && !(ctx.role == Role.admin)) = false)
    (h5 : (handler.needsNetwork
      && decide (ctx.operatingMode < omSYNCING)) = false)
    (hab : ctx.amendmentBlocked = true)
    (hneed : (handler.needsCurrent || handler.needsClosed) = true) :
    fillHandler ctx = .error .amendmentBlocked ∧
    (∀ (ctx' : Context) (handler' : Handler),
      ctx'.registry (strCommand ctx') = some handler' →
      handler'.needsCurrent = false → handler'.needsClosed = false →
      ¬fillHandler ctx' = .error .amendmentBlocked) := by
  constructor
  · unfold fillHandler
    simp only [h1, h2, h3, Bool.false_eq_true, if_false]
    unfold resolveFrom
    rw [hreg]
    simp [h4, h5, hab, hneed]
  · intro ctx' handler' hreg' hc' hl'
    unfold fillHandler
    by_cases c1 : (!isUnlimited ctx'.role
        && decide (ctx'.jobCount > maxJobQueueClients)) = true
    · simp [c1]
    by_cases c2 : (!ctx'.params.isMember "command"
        && !ctx'.params.isMember "method") = true
    · simp [c1, c2]
    by_cases c3 : (ctx'.params.isMember "command"
        && ctx'.params.isMember "method"
        && !((ctx'.params.getMember "command").asString
              == (ctx'.params.getMember "method").asString)) = true
    · simp [c1, c2, c3]
    · simp only [c1, c2, c3, Bool.false_eq_true, if_false]
      exact resolveFrom_no_ledger_ne_amendmentBlocked ctx' (strCommand ctx')
        handler' hreg' hc' hl'

/-- C8 (witness): the amendment-blocked node fails the ledger command and
passes the ping command. -/
theorem fillHandler_amendment_blocked_witness :
    fillHandler blockedLedgerCtx = .error .amendmentBlocked ∧
    ¬fillHandler blockedPingCtx = .error .amendmentBlocked :=
  ⟨(fillHandler_amendment_blocked blockedLedgerCtx ledgerHandler rfl rfl rfl
      rfl rfl rfl rfl rfl).1,
   (fillHandler_amendment_blocked blockedLedgerCtx ledgerHandler rfl rfl rfl
      rfl rfl rfl rfl rfl).2 blockedPingCtx pingHandler rfl rfl rfl⟩

/-- C3: the envelope builder's round trip — when the wrapped call returns
success, `result.status` is `"success"` and the builder adds no `request`
field; on any error, `result.status` is `"error"` and `result.request`
echoes the original request parameters with each of the top-level fields
`passphrase`, `secret`, `seed`, `seed_hex` (when present) replaced by the
fixed mask token and every other field unchanged. -/
theorem getResult_envelope (method : MethodFn) (ctx : Context)
    (object : JValue) (name : String) (st : CallState)
    (hobj : object.isObject = true)
    (hp : ctx.params.isObject = true)
    (hout : (callMethod method ctx name (.obj []) st).2.1.isObject = true) :
    ((callMethod method ctx name (.obj []) st).1 = .success →
      ((getResult method ctx object name st).1.getMember "result").getMember
          "status" = .str "success" ∧
      ((getResult method ctx object name st).1.getMember "result").isMember
          "request"
        = (callMethod method ctx name (.obj []) st).2.1.isMember "request") ∧
    (¬(callMethod method ctx name (.obj []) st).1 = .success →
      ((getResult method ctx object name st).1.getMember "result").getMember
          "status" = .str "error" ∧
      ((getResult method ctx object name st).1.getMember "result").getMember
          "request" = maskParams ctx.params) ∧
    (∀ k, k ∈ sensitiveFields → ctx.params.isMember k = true →
      (maskParams ctx.params).getMember k = .str "<masked>") ∧
    (∀ k, ¬k ∈ sensitiveFields →
      (maskParams ctx.params).getMember k = ctx.params.getMember k) ∧
    (∀ k, (maskParams ctx.params).isMember k = ctx.params.isMember k) := by
  have hparams := callMethod_params method ctx name (.obj []) st
  refine ⟨?_, ?_, ?_, ?_, ?_⟩
  · intro hsucc
    simp only [getResult, hsucc, beq_self_eq_true, if_true]
    rw [getMember_setMember_same _ _ _ hobj]
    constructor
    · rw [getMember_setMember_same _ _ _ hout]
    · rw [isMember_setMember _ _ _ _ hout,
        if_neg ((by decide : ¬("request" = "status")))]
  · intro herr
    have hcond : ((callMethod method ctx name (.obj []) st).1
        == ErrorCode.success) = false := by
      simpa using herr
    simp only [getResult, hcond, Bool.false_eq_true, if_false]
    rw [getMember_setMember_same _ _ _ hobj]
    have hobj2 : ((callMethod method ctx name (.obj []) st).2.1.setMember
        "status" (.str "error")).isObject = true :=
      isObject_setMember _ _ _ hout
    constructor
    · rw [getMember_setMember_ne _ _ _ _ hobj2 (by decide),
        getMember_setMember_same _ _ _ hout]
    · rw [getMember_setMember_same _ _ _ hobj2, hparams]
  · intro k hks hkm
    rw [getMember_maskParams _ _ hp]
    simp [hks, hkm]
  · intro k hks
    rw [getMember_maskParams _ _ hp]
    simp [hks]
  · intro k
    exact isMember_maskParams _ _

/-- C3 (witness): a throwing body on the request carrying a top-level
`secret`: the envelope reports an error status, echoes the masked request,
the secret reads back as the mask token, the ordinary field unchanged. -/
theorem getResult_envelope_witness :
    ((getResult throwingMethod secretCtx (.obj []) "ping" ⟨0, []⟩).1.getMember
        "result").getMember "status" = .str "error" ∧
    ((getResult throwingMethod secretCtx (.obj []) "ping" ⟨0, []⟩).1.getMember
        "result").getMember "request" = maskParams secretCtx.params ∧
    (maskParams secretCtx.params).getMember "secret" = .str "<masked>" ∧
    (maskParams secretCtx.params).getMember "ledger_index" = .num 7 :=
  ⟨((getResult_envelope throwingMethod secretCtx (.obj []) "ping" ⟨0, []⟩
      rfl rfl rfl).2.1 (by decide)).1,
   ((getResult_envelope throwingMethod secretCtx (.obj []) "ping" ⟨0, []⟩
      rfl rfl rfl).2.1 (by decide)).2,
   (getResult_envelope throwingMethod secretCtx (.obj []) "ping" ⟨0, []⟩
      rfl rfl rfl).2.2.1 "secret" (by decide) rfl,
   by
     have h := (getResult_envelope throwingMethod secretCtx (.obj []) "ping"
       ⟨0, []⟩ rfl rfl rfl).2.2.2.1 "ledger_index" (by decide)
     rw [h]
     rfl⟩

/-- C10: the builder masks a copy — after `getResult` returns, on any
outcome, the context's own request parameters are unchanged (so the
`passphrase`, `secret`, `seed`, `seed_hex` fields remain unmasked in the
context). -/
theorem getResult_preserves_params (method : MethodFn) (ctx : Context)
    (object : JValue) (name : String) (st : CallState) :
    (getResult method ctx object name st).2.1.params = ctx.params := by
  simp only [getResult]
  exact callMethod_params method ctx name (.obj []) st

end RPCHandler
